import Mathlib

/-!
# repo-watcher: verification of the spec against `src/main.rs`

The program is a thin orchestration layer over the git2 library: open a
local repository, fetch one branch from one remote (optionally with an
SSH-key credential callback), compare the local HEAD commit id with the
fetched tip, and merge when they differ.

The embedding below models the on-disk git state (repositories keyed by
filesystem path; each with a HEAD commit id, configured remotes, the
remote-tracking table and the FETCH_HEAD marker) and the git2 primitives
the program calls, `Modelled from the spec:` where noted, since libgit2
itself is not part of this repository.  The four functions of
`src/main.rs` (`fetch_latest_commit_sha`, `check_for_new_commits`,
`pull_repo`, `run`) are translated line by line over those primitives.
Rust panics (`unwrap` / `expect`) are modelled by a distinguished
`Outcome.panicked` result, distinct from a returned `Err`.
-/

/-- A commit identifier: an immutable hash string, compared only for
string equality (spec section 3). -/
abbrev Sha := String

/-- A filesystem path, as a string. -/
abbrev FsPath := String

/-- Errors returned (as `Err` values) by the modelled git2 primitives. -/
inductive GitError where
  | repoNotFound
  | remoteNotFound
  | authRequired
  | branchNotFoundOnRemote
  | noHead
  | refNotFound
  | mergeConflict
deriving DecidableEq, Repr

/-- The credential-type requests a server may make (git2
`CredentialType`); the program's callback ignores them. -/
inductive CredType where
  | sshKeyType
  | userPassPlaintext
  | defaultCred
  | usernameOnly
deriving DecidableEq, Repr

/-- A credential value produced by a callback; the program only ever
builds `Cred::ssh_key(username, publickey, privatekey, passphrase)`. -/
inductive Cred where
  | sshKey (username : String) (publickey : Option FsPath)
      (privatekey : FsPath) (passphrase : Option String)
deriving DecidableEq, Repr

/-- What a credential callback invocation yields: a credential, or a
panic (the program's callback unwraps `username_from_url`). -/
inductive CredCallbackResult where
  | ok (c : Cred)
  | panicked
deriving DecidableEq, Repr

/-- A git2 credential callback: url, optional username parsed from the
url, and the credential types the server allows. -/
abbrev CredCallback := String → Option String → List CredType → CredCallbackResult

/-- A configured remote together with the state of the remote repository
reachable through it: the url, the username the url carries (if any),
whether the server issues a credential request on connect, which
credential types it would allow, and the branch tips it serves. -/
structure RemoteData where
  url : String
  username_from_url : Option String
  requests_credentials : Bool
  allowed_types : List CredType
  branches : List (String × Sha)
deriving DecidableEq, Repr

/-- The observable state of one on-disk repository: the local HEAD
peeled to a commit id (`none` models an unborn/unreadable HEAD), the
configured remotes, the remote-tracking table keyed by (remote, branch),
the FETCH_HEAD marker, and the commit id (if any) merged into the index
and working tree by a `merge` call (git2 `Repository::merge` updates
index and working tree; it never commits or moves the branch ref). -/
structure RepoState where
  head : Option Sha
  remotes : List (String × RemoteData)
  remote_tracking : List ((String × String) × Sha)
  fetch_head : Option Sha
  workdir_merged_with : Option Sha
deriving DecidableEq, Repr

/-- The world: the repositories on disk, keyed by path. -/
structure World where
  repos : List (FsPath × RepoState)
deriving DecidableEq, Repr

/-- The merge-analysis oracle: whether merging commit `theirs` into a
HEAD at commit `ours` produces a file-level conflict.  This abstracts
the content-level merge algorithm of the underlying library. -/
structure MergeOracle where
  conflicts : Sha → Sha → Bool

/-- Observable events of one invocation: a network fetch (recording
whether a credential callback was supplied with it), and an invocation
of the merge primitive. -/
inductive Event where
  | networkFetch (remote : String) (branch : String) (withCredentialCallback : Bool)
  | mergeInvoked (theirSha : Sha)
deriving DecidableEq, Repr

/-- The result of running a fallible Rust function: a returned `Ok`, a
returned `Err`, or a panic (`unwrap`/`expect` on a missing value). -/
inductive Outcome (α : Type) where
  | ok (a : α)
  | err (e : GitError)
  | panicked
deriving DecidableEq, Repr

/-- Modelled from the spec: `Repository::open(path)` — resolves the
repository at a path, failing when none is there; no side effects
(spec section 4.1). -/
def openRepo (w : World) (p : FsPath) : Option RepoState :=
  w.repos.lookup p

/-- Write back the (possibly updated) repository at a path. -/
def setRepo (w : World) (p : FsPath) (st : RepoState) : World :=
  ⟨(p, st) :: w.repos.filter (fun q => q.1 != p)⟩

/-- Update the remote-tracking table at key (remote, branch). -/
def setTracking (rt : List ((String × String) × Sha)) (k : String × String)
    (v : Sha) : List ((String × String) × Sha) :=
  (k, v) :: rt.filter (fun q => q.1 != k)

/-- The repository state after a successful fetch of `branch` from
`remoteName` whose tip is `tip`: only the remote-tracking ref and the
FETCH_HEAD marker change (spec sections 3 and 4.2). -/
def fetchUpdate (repo : RepoState) (remoteName : String) (branch : String)
    (tip : Sha) : RepoState :=
  { repo with
    remote_tracking := setTracking repo.remote_tracking (remoteName, branch) tip
    fetch_head := some tip }

/-- Modelled from the spec: `Remote::fetch(&[branch], opts, None)` — the
library fetch of exactly one branch (section 4.2).  If the server
requests credentials, the callback carried by the options is consulted
(no callback means the fetch fails needing auth; a panicking callback
panics the fetch); then the requested branch tip is downloaded and only
the remote-tracking ref and FETCH_HEAD are updated.  Key validation by
the server is not modelled (no claim depends on a rejected key). -/
def remoteFetch (repo : RepoState) (remoteName : String) (rd : RemoteData)
    (branch : String) (cb : Option CredCallback) :
    Outcome RepoState × List Event :=
  let ev := Event.networkFetch remoteName branch cb.isSome
  let proceed : Outcome RepoState × List Event :=
    match rd.branches.lookup branch with
    | none => (.err .branchNotFoundOnRemote, [ev])
    | some tip => (.ok (fetchUpdate repo remoteName branch tip), [ev])
  if rd.requests_credentials then
    match cb with
    | none => (.err .authRequired, [ev])
    | some f =>
      match f rd.url rd.username_from_url rd.allowed_types with
      | .panicked => (.panicked, [ev])
      | .ok _ => proceed
  else proceed

/-- Modelled from the spec: `Repository::merge` with
`fail_on_conflict(true)` (section 4.4) — errors out the moment a
conflict is detected, leaving the repository unchanged; on success it
updates the index and working tree with the merged content and leaves
the branch tip untouched (committing is the caller's job, which
`src/main.rs` never does). -/
def repoMerge (oracle : MergeOracle) (st : RepoState) (theirSha : Sha) :
    Outcome RepoState × List Event :=
  match st.head with
  | none => (.err .noHead, [Event.mergeInvoked theirSha])
  | some ours =>
    if oracle.conflicts ours theirSha then
      (.err .mergeConflict, [Event.mergeInvoked theirSha])
    else
      (.ok { st with workdir_merged_with := some theirSha },
        [Event.mergeInvoked theirSha])

/-- The credential callback installed by `fetch_latest_commit_sha`
(src/main.rs lines 72-79): for every credential request it attempts
`Cred::ssh_key(username_from_url.unwrap(), None, ssh_key_path, None)` —
the supplied private key, no public key, no passphrase, the username
parsed from the url — ignoring `_url` and `_allowed_types`; it panics
(`unwrap`) when the url carries no username. -/
def credentialsCallback (ssh_key_path : FsPath) : CredCallback :=
  fun _url username_from_url _allowed_types =>
    match username_from_url with
    | some u => .ok (.sshKey u none ssh_key_path none)
    | none => .panicked

/-- src/main.rs lines 68-91, `fetch_latest_commit_sha`: open the
repository, install the credential callback in the fetch options, find
the remote (`?`), fetch the branch with those options (`?`), then read
FETCH_HEAD (`?`), peel it to an annotated commit (`?`) and return its id
as a string.  Returns the result, the world after the call and the event
trace. -/
def fetch_latest_commit_sha (w : World) (local_path : FsPath)
    (ssh_key_path : FsPath) (remote : String) (branch : String) :
    Outcome Sha × World × List Event :=
  match openRepo w local_path with
  | none => (.err .repoNotFound, w, [])
  | some repo =>
    match repo.remotes.lookup remote with
    | none => (.err .remoteNotFound, w, [])
    | some rd =>
      match remoteFetch repo remote rd branch
          (some (credentialsCallback ssh_key_path)) with
      | (.err e, evs) => (.err e, w, evs)
      | (.panicked, evs) => (.panicked, w, evs)
      | (.ok repo2, evs) =>
        match repo2.fetch_head with
        | none => (.err .refNotFound, setRepo w local_path repo2, evs)
        | some sha => (.ok sha, setRepo w local_path repo2, evs)

/-- src/main.rs lines 93-99, `check_for_new_commits`: open the
repository, peel HEAD to a commit (`?`), and return whether its id
string differs (`!=`) from `latest_sha`.  A pure read: no world change,
no events. -/
def check_for_new_commits (w : World) (repo_path : FsPath)
    (latest_sha : Sha) : Outcome Bool :=
  match openRepo w repo_path with
  | none => .err .repoNotFound
  | some repo =>
    match repo.head with
    | none => .err .noHead
    | some local_sha => .ok (local_sha != latest_sha)

/-- src/main.rs lines 101-114, `pull_repo`: open the repository, find
the remote (`?`), fetch the branch with NO fetch options and no
credential callback (`fetch(&[branch], None, None)?`), then `.unwrap()`
the FETCH_HEAD lookup, `.unwrap()` the annotated commit, and
`.unwrap()` the merge with `fail_on_conflict(true)` — so every failure
after the fetch, a merge conflict included, panics instead of being
returned as an `Err`. -/
def pull_repo (oracle : MergeOracle) (w : World) (local_path : FsPath)
    (remote : String) (branch : String) :
    Outcome Unit × World × List Event :=
  match openRepo w local_path with
  | none => (.err .repoNotFound, w, [])
  | some repo =>
    match repo.remotes.lookup remote with
    | none => (.err .remoteNotFound, w, [])
    | some rd =>
      match remoteFetch repo remote rd branch none with
      | (.err e, evs) => (.err e, w, evs)
      | (.panicked, evs) => (.panicked, w, evs)
      | (.ok repo2, evs) =>
        match repo2.fetch_head with
        | none => (.panicked, setRepo w local_path repo2, evs)
        | some sha =>
          match repoMerge oracle repo2 sha with
          | (.err _, evs2) =>
            (.panicked, setRepo w local_path repo2, evs ++ evs2)
          | (.panicked, evs2) =>
            (.panicked, setRepo w local_path repo2, evs ++ evs2)
          | (.ok repo3, evs2) =>
            (.ok (), setRepo w local_path repo3, evs ++ evs2)

/-- The clap CLI arguments of src/main.rs lines 13-34: every field
optional at the command line. -/
structure Cli where
  local_path : Option FsPath
  remote : Option String
  branch : Option String
  ssh_key_path : Option FsPath
  env_file : Option FsPath
deriving DecidableEq, Repr

/-- The configuration `run` resolves before the pipeline starts. -/
structure ResolvedConfig where
  local_path : FsPath
  remote : String
  branch : String
  ssh_key_path : FsPath
deriving DecidableEq, Repr

/-- The Rust `flag.unwrap_or_else(|| env::var(KEY).expect(..))` pattern:
the flag value if given, else the environment variable if set, else
`none` (modelling the `expect` panic). -/
def orEnv (flag : Option String) (env : List (String × String))
    (key : String) : Option String :=
  match flag with
  | some v => some v
  | none => env.lookup key

/-- src/main.rs lines 132-135: each value is the flag if given, else the
environment variable, else the program panics
(`env::var(..).expect(..)`), in source order LOCAL_PATH, REMOTE, BRANCH,
SSH_KEY_PATH.  `env` is the process environment after any dotenv load
from `env_file` (lines 127-129).  `none` models the `expect` panic. -/
def resolveConfig (args : Cli) (env : List (String × String)) :
    Option ResolvedConfig :=
  match orEnv args.local_path env "LOCAL_PATH" with
  | none => none
  | some lp =>
    match orEnv args.remote env "REMOTE" with
    | none => none
    | some r =>
      match orEnv args.branch env "BRANCH" with
      | none => none
      | some b =>
        match orEnv args.ssh_key_path env "SSH_KEY_PATH" with
        | none => none
        | some k => some ⟨lp, r, b, k⟩

/-- src/main.rs lines 125-153, `run`: resolve the configuration
(panicking on a missing value), fetch the latest commit sha (`?` with
context), check for new commits (`?` with context), and pull only when
new commits were seen (`?` with context). -/
def run (oracle : MergeOracle) (w : World) (args : Cli)
    (env : List (String × String)) : Outcome Unit × World × List Event :=
  match resolveConfig args env with
  | none => (.panicked, w, [])
  | some cfg =>
    match fetch_latest_commit_sha w cfg.local_path cfg.ssh_key_path
        cfg.remote cfg.branch with
    | (.err e, w1, evs) => (.err e, w1, evs)
    | (.panicked, w1, evs) => (.panicked, w1, evs)
    | (.ok latest_sha, w1, evs) =>
      match check_for_new_commits w1 cfg.local_path latest_sha with
      | .err e => (.err e, w1, evs)
      | .panicked => (.panicked, w1, evs)
      | .ok false => (.ok (), w1, evs)
      | .ok true =>
        match pull_repo oracle w1 cfg.local_path cfg.remote cfg.branch with
        | (res, w2, evs2) => (res, w2, evs ++ evs2)

/-! ## Basic lemmas about the world and the ref-table updates -/

theorem openRepo_setRepo_self (w : World) (p : FsPath) (st : RepoState) :
    openRepo (setRepo w p st) p = some st := by
  simp [openRepo, setRepo, List.lookup]

theorem filter_filter_self {α : Type} (p : α → Bool) (l : List α) :
    (l.filter p).filter p = l.filter p := by
  induction l with
  | nil => rfl
  | cons a t ih => cases h : p a <;> simp [List.filter_cons, h, ih]

theorem setTracking_idem (rt : List ((String × String) × Sha))
    (k : String × String) (v : Sha) :
    setTracking (setTracking rt k v) k v = setTracking rt k v := by
  simp [setTracking, List.filter_cons, filter_filter_self]

theorem setRepo_idem (w : World) (p : FsPath) (st : RepoState) :
    setRepo (setRepo w p st) p st = setRepo w p st := by
  simp [setRepo, List.filter_cons, filter_filter_self]

theorem fetchUpdate_idem (repo : RepoState) (r b : String) (tip : Sha) :
    fetchUpdate (fetchUpdate repo r b tip) r b tip = fetchUpdate repo r b tip := by
  simp [fetchUpdate, setTracking_idem]

/-! ## Shape of a successful fetch -/

theorem fetch_ok_inv (w : World) (lp key : FsPath) (r b : String)
    (sha : Sha) (w1 : World) (evs : List Event)
    (hc : fetch_latest_commit_sha w lp key r b = (.ok sha, w1, evs)) :
    ∃ repo rd, openRepo w lp = some repo ∧
      repo.remotes.lookup r = some rd ∧
      rd.branches.lookup b = some sha ∧
      (rd.requests_credentials = false ∨ ∃ u, rd.username_from_url = some u) ∧
      w1 = setRepo w lp (fetchUpdate repo r b sha) ∧
      evs = [Event.networkFetch r b true] := by
  cases hop : openRepo w lp with
  | none => simp [fetch_latest_commit_sha, hop] at hc
  | some repo =>
    cases hrd : repo.remotes.lookup r with
    | none => simp [fetch_latest_commit_sha, hop, hrd] at hc
    | some rd =>
      cases hreq : rd.requests_credentials with
      | false =>
        cases htip : rd.branches.lookup b with
        | none => simp [fetch_latest_commit_sha, hop, hrd, remoteFetch, hreq, htip] at hc
        | some tip =>
          simp [fetch_latest_commit_sha, hop, hrd, remoteFetch, hreq, htip,
            fetchUpdate] at hc
          obtain ⟨h1, h2, h3⟩ := hc
          subst_vars
          exact ⟨repo, rd, rfl, hrd, htip, Or.inl hreq, rfl, rfl⟩
      | true =>
        cases hu : rd.username_from_url with
        | none =>
          simp [fetch_latest_commit_sha, hop, hrd, remoteFetch, hreq, hu,
            credentialsCallback] at hc
        | some u =>
          cases htip : rd.branches.lookup b with
          | none =>
            simp [fetch_latest_commit_sha, hop, hrd, remoteFetch, hreq, hu,
              credentialsCallback, htip] at hc
          | some tip =>
            simp [fetch_latest_commit_sha, hop, hrd, remoteFetch, hreq, hu,
              credentialsCallback, htip, fetchUpdate] at hc
            obtain ⟨h1, h2, h3⟩ := hc
            subst_vars
            exact ⟨repo, rd, rfl, hrd, htip, Or.inr ⟨u, hu⟩, rfl, rfl⟩

theorem fetch_ok_eval (w : World) (lp key : FsPath) (r b : String)
    (repo : RepoState) (rd : RemoteData) (tip : Sha)
    (hop : openRepo w lp = some repo)
    (hrd : repo.remotes.lookup r = some rd)
    (htip : rd.branches.lookup b = some tip)
    (hcred : rd.requests_credentials = false ∨ ∃ u, rd.username_from_url = some u) :
    fetch_latest_commit_sha w lp key r b =
      (.ok tip, setRepo w lp (fetchUpdate repo r b tip),
        [Event.networkFetch r b true]) := by
  cases hreq : rd.requests_credentials with
  | false =>
    simp [fetch_latest_commit_sha, hop, hrd, remoteFetch, hreq, htip, fetchUpdate]
  | true =>
    rcases hcred with h | ⟨u, hu⟩
    · rw [hreq] at h; exact absurd h (by simp)
    · simp [fetch_latest_commit_sha, hop, hrd, remoteFetch, hreq, hu,
        credentialsCallback, htip, fetchUpdate]

theorem fetch_ok_refetch (w : World) (lp key : FsPath) (r b : String)
    (sha : Sha) (w1 : World) (evs : List Event)
    (hc : fetch_latest_commit_sha w lp key r b = (.ok sha, w1, evs)) :
    fetch_latest_commit_sha w1 lp key r b = (.ok sha, w1, evs) := by
  obtain ⟨repo, rd, hop, hrd, htip, hcred, hw1, hevs⟩ :=
    fetch_ok_inv w lp key r b sha w1 evs hc
  subst hw1
  subst hevs
  have hop1 : openRepo (setRepo w lp (fetchUpdate repo r b sha)) lp
      = some (fetchUpdate repo r b sha) := openRepo_setRepo_self w lp _
  have hrd1 : (fetchUpdate repo r b sha).remotes.lookup r = some rd := hrd
  have h2 := fetch_ok_eval (setRepo w lp (fetchUpdate repo r b sha)) lp key r b
    (fetchUpdate repo r b sha) rd sha hop1 hrd1 htip hcred
  rw [h2, fetchUpdate_idem, setRepo_idem]

/-! ## Claim C1 -/

/-- Claim C1: for every repository state and every remote tip identifier
string, `check_for_new_commits` returns true if and only if the string
identifier of the local HEAD commit differs from the remote tip
identifier — a strict string inequality with no ancestry analysis. -/
theorem comparator_strict_inequality (w : World) (p : FsPath)
    (repo : RepoState) (localSha : Sha) (latest : Sha)
    (hop : openRepo w p = some repo) (hh : repo.head = some localSha) :
    check_for_new_commits w p latest = .ok (localSha != latest) ∧
      (check_for_new_commits w p latest = .ok true ↔ localSha ≠ latest) := by
  constructor
  · simp [check_for_new_commits, hop, hh]
  · simp [check_for_new_commits, hop, hh]

/-- A concrete repository with HEAD at commit id "aaa". -/
def c1repo : RepoState :=
  { head := some "aaa", remotes := [], remote_tracking := [],
    fetch_head := none, workdir_merged_with := none }

/-- A world holding `c1repo` at path "repo". -/
def c1world : World := ⟨[("repo", c1repo)]⟩

/-- Witness for the C1 theorem at a concrete repository and remote tip. -/
theorem comparator_strict_inequality_witness :
    check_for_new_commits c1world "repo" "bbb" = .ok ("aaa" != "bbb") ∧
      (check_for_new_commits c1world "repo" "bbb" = .ok true ↔ "aaa" ≠ "bbb") :=
  comparator_strict_inequality c1world "repo" c1repo "aaa" "bbb" rfl rfl

/-! ## Claim C6 -/

/-- Claim C6: when an SSH key path is supplied, the credential callback
installed by the fetch stage answers every credential request — whatever
the url and whatever credential types the server allows — with SSH
key-based authentication using that private key, no passphrase, and the
username taken from the remote url. -/
theorem credential_callback_always_uses_ssh_key (ssh_key_path : FsPath)
    (url : String) (u : String) (allowed : List CredType) :
    credentialsCallback ssh_key_path url (some u) allowed =
      .ok (.sshKey u none ssh_key_path none) := rfl

/-! ## Claim C9 -/

/-- Claim C9: supplying a remote name that is not configured in the
repository makes the fetch stage fail with the remote-not-found
configuration error before any network fetch is attempted: the world is
unchanged and no network-fetch event happens. -/
theorem fetch_unknown_remote_fails_before_network (w : World)
    (lp key : FsPath) (r b : String) (repo : RepoState)
    (hop : openRepo w lp = some repo)
    (hrd : repo.remotes.lookup r = none) :
    fetch_latest_commit_sha w lp key r b = (.err .remoteNotFound, w, []) := by
  simp [fetch_latest_commit_sha, hop, hrd]

/-- A repository with no configured remotes at path "repo9". -/
def c9repo : RepoState :=
  { head := some "aaa", remotes := [], remote_tracking := [],
    fetch_head := none, workdir_merged_with := none }

/-- A world holding `c9repo`. -/
def c9world : World := ⟨[("repo9", c9repo)]⟩

/-- Witness for the C9 theorem: fetching from the unconfigured remote
"origin" fails with `remoteNotFound`, leaving the world unchanged and
performing no network fetch. -/
theorem fetch_unknown_remote_fails_before_network_witness :
    fetch_latest_commit_sha c9world "repo9" "key" "origin" "main" =
      (.err .remoteNotFound, c9world, []) :=
  fetch_unknown_remote_fails_before_network c9world "repo9" "key" "origin"
    "main" c9repo rfl rfl

/-! ## Claim C8 -/

/-- Claim C8: when the remote requests credentials and its url carries
no username, the fetch stage's credential callback panics on `unwrap`,
so `fetch_latest_commit_sha` panics rather than returning any `Err`. -/
theorem fetch_panics_without_url_username (w : World) (lp key : FsPath)
    (r b : String) (repo : RepoState) (rd : RemoteData)
    (hop : openRepo w lp = some repo)
    (hrd : repo.remotes.lookup r = some rd)
    (hreq : rd.requests_credentials = true)
    (hu : rd.username_from_url = none) :
    fetch_latest_commit_sha w lp key r b =
        (.panicked, w, [Event.networkFetch r b true]) ∧
      ∀ e w1 evs, fetch_latest_commit_sha w lp key r b ≠ (.err e, w1, evs) := by
  have h : fetch_latest_commit_sha w lp key r b =
      (.panicked, w, [Event.networkFetch r b true]) := by
    simp [fetch_latest_commit_sha, hop, hrd, remoteFetch, hreq, hu,
      credentialsCallback]
  refine ⟨h, ?_⟩
  intro e w1 evs hc
  rw [h] at hc
  simp at hc

/-- A remote whose url carries no username and whose server requests
credentials. -/
def c8remote : RemoteData :=
  { url := "ssh://example/x", username_from_url := none,
    requests_credentials := true, allowed_types := [CredType.sshKeyType],
    branches := [("main", "bbb")] }

/-- A repository configured with `c8remote` as "origin". -/
def c8repo : RepoState :=
  { head := some "aaa", remotes := [("origin", c8remote)],
    remote_tracking := [], fetch_head := none, workdir_merged_with := none }

/-- A world holding `c8repo` at path "repo8". -/
def c8world : World := ⟨[("repo8", c8repo)]⟩

/-- Witness for the C8 theorem: the fetch panics (and returns no `Err`)
on the concrete remote without a url username. -/
theorem fetch_panics_without_url_username_witness :
    fetch_latest_commit_sha c8world "repo8" "key" "origin" "main" =
        (.panicked, c8world, [Event.networkFetch "origin" "main" true]) ∧
      ∀ e w1 evs, fetch_latest_commit_sha c8world "repo8" "key" "origin" "main"
        ≠ (.err e, w1, evs) :=
  fetch_panics_without_url_username c8world "repo8" "key" "origin" "main"
    c8repo c8remote rfl rfl rfl rfl

/-! ## Claim C4 -/

/-- Claim C4: the merge stage's re-fetch passes no fetch options and no
credential callback (`fetch(&[branch], None, None)`), so every network
fetch performed by `pull_repo` happens without the key-based credential
callback used by the fetch stage, whatever key was supplied to the
program (`pull_repo` does not even receive the key path). -/
theorem pull_repo_fetch_without_credentials (oracle : MergeOracle)
    (w : World) (lp : FsPath) (r b : String) (repo : RepoState)
    (rd : RemoteData)
    (hop : openRepo w lp = some repo)
    (hrd : repo.remotes.lookup r = some rd) :
    (∃ rest, (pull_repo oracle w lp r b).2.2 =
        Event.networkFetch r b false :: rest) ∧
      ∀ rn bn c, Event.networkFetch rn bn c ∈ (pull_repo oracle w lp r b).2.2 →
        c = false := by
  cases hreq : rd.requests_credentials with
  | true =>
    simp [pull_repo, hop, hrd, remoteFetch, hreq]
  | false =>
    cases htip : rd.branches.lookup b with
    | none => simp [pull_repo, hop, hrd, remoteFetch, hreq, htip]
    | some tip =>
      cases hh : repo.head with
      | none =>
        simp [pull_repo, hop, hrd, remoteFetch, hreq, htip, fetchUpdate,
          repoMerge, hh]
      | some ours =>
        cases hconf : oracle.conflicts ours tip <;>
          simp [pull_repo, hop, hrd, remoteFetch, hreq, htip, fetchUpdate,
            repoMerge, hh, hconf]

/-! ## Shape of the world after any fetch -/

theorem fetch_world_shape (w : World) (lp key : FsPath) (r b : String)
    (res : Outcome Sha) (w1 : World) (evs : List Event)
    (hc : fetch_latest_commit_sha w lp key r b = (res, w1, evs)) :
    w1 = w ∨ ∃ repo tip, openRepo w lp = some repo ∧
      w1 = setRepo w lp (fetchUpdate repo r b tip) := by
  cases hop : openRepo w lp with
  | none =>
    simp [fetch_latest_commit_sha, hop] at hc
    exact Or.inl hc.2.1.symm
  | some repo =>
    cases hrd : repo.remotes.lookup r with
    | none =>
      simp [fetch_latest_commit_sha, hop, hrd] at hc
      exact Or.inl hc.2.1.symm
    | some rd =>
      cases hreq : rd.requests_credentials with
      | false =>
        cases htip : rd.branches.lookup b with
        | none =>
          simp [fetch_latest_commit_sha, hop, hrd, remoteFetch, hreq, htip] at hc
          exact Or.inl hc.2.1.symm
        | some tip =>
          simp [fetch_latest_commit_sha, hop, hrd, remoteFetch, hreq, htip,
            fetchUpdate] at hc
          exact Or.inr ⟨repo, tip, rfl, by rw [← hc.2.1]; rfl⟩
      | true =>
        cases hu : rd.username_from_url with
        | none =>
          simp [fetch_latest_commit_sha, hop, hrd, remoteFetch, hreq, hu,
            credentialsCallback] at hc
          exact Or.inl hc.2.1.symm
        | some u =>
          cases htip : rd.branches.lookup b with
          | none =>
            simp [fetch_latest_commit_sha, hop, hrd, remoteFetch, hreq, hu,
              credentialsCallback, htip] at hc
            exact Or.inl hc.2.1.symm
          | some tip =>
            simp [fetch_latest_commit_sha, hop, hrd, remoteFetch, hreq, hu,
              credentialsCallback, htip, fetchUpdate] at hc
            exact Or.inr ⟨repo, tip, rfl, by rw [← hc.2.1]; rfl⟩

/-! ## Claim C7 -/

/-- Claim C7: `fetch_latest_commit_sha` never alters the local branch
tip: whatever its outcome, the repository at the fetched path keeps its
HEAD commit id (and its configured remotes and merged-index marker —
only remote-tracking state and FETCH_HEAD may change), so the comparator
run after the fetch reads the same local HEAD commit as before it. -/
theorem fetch_preserves_local_head (w : World) (lp key : FsPath)
    (r b : String) (res : Outcome Sha) (w1 : World) (evs : List Event)
    (repo repo1 : RepoState)
    (hc : fetch_latest_commit_sha w lp key r b = (res, w1, evs))
    (hop : openRepo w lp = some repo)
    (hop1 : openRepo w1 lp = some repo1) :
    repo1.head = repo.head ∧ repo1.remotes = repo.remotes ∧
      repo1.workdir_merged_with = repo.workdir_merged_with ∧
      ∀ localSha s, repo.head = some localSha →
        check_for_new_commits w1 lp s = .ok (localSha != s) := by
  rcases fetch_world_shape w lp key r b res w1 evs hc with hw | ⟨repo2, tip, hop2, hw⟩
  · subst hw
    rw [hop] at hop1
    have h1 : repo = repo1 := Option.some.inj hop1
    subst h1
    refine ⟨rfl, rfl, rfl, ?_⟩
    intro localSha s hls
    simp [check_for_new_commits, hop, hls]
  · rw [hop] at hop2
    have h1 : repo = repo2 := Option.some.inj hop2
    subst h1
    subst hw
    rw [openRepo_setRepo_self] at hop1
    have h2 : fetchUpdate repo r b tip = repo1 := Option.some.inj hop1
    subst h2
    refine ⟨rfl, rfl, rfl, ?_⟩
    intro localSha s hls
    simp [check_for_new_commits, openRepo_setRepo_self, fetchUpdate, hls]

/-- A remote serving branch "main" at tip "bbb", url username "git". -/
def c7remote : RemoteData :=
  { url := "ssh://git@example/x", username_from_url := some "git",
    requests_credentials := false, allowed_types := [CredType.sshKeyType],
    branches := [("main", "bbb")] }

/-- A repository with HEAD "aaa" and `c7remote` configured as "origin". -/
def c7repo : RepoState :=
  { head := some "aaa", remotes := [("origin", c7remote)],
    remote_tracking := [], fetch_head := none, workdir_merged_with := none }

/-- A world holding `c7repo` at path "repo7". -/
def c7world : World := ⟨[("repo7", c7repo)]⟩

/-- Witness for the C7 theorem: a successful concrete fetch leaves the
local HEAD (and remotes and merged-index marker) untouched, and the
comparator then reads the pre-fetch HEAD "aaa". -/
theorem fetch_preserves_local_head_witness :
    (fetchUpdate c7repo "origin" "main" "bbb").head = c7repo.head ∧
      (fetchUpdate c7repo "origin" "main" "bbb").remotes = c7repo.remotes ∧
      (fetchUpdate c7repo "origin" "main" "bbb").workdir_merged_with =
        c7repo.workdir_merged_with ∧
      ∀ localSha s, c7repo.head = some localSha →
        check_for_new_commits
          (setRepo c7world "repo7" (fetchUpdate c7repo "origin" "main" "bbb"))
          "repo7" s = .ok (localSha != s) :=
  fetch_preserves_local_head c7world "repo7" "key" "origin" "main"
    (.ok "bbb")
    (setRepo c7world "repo7" (fetchUpdate c7repo "origin" "main" "bbb"))
    [Event.networkFetch "origin" "main" true] c7repo
    (fetchUpdate c7repo "origin" "main" "bbb") rfl rfl
    (openRepo_setRepo_self c7world "repo7" _)

/-! ## Claim C10 -/

/-- Claim C10: the fetch stage is deterministic for fixed inputs against
an unchanged remote: when a call returns a commit identifier, calling it
again with the same arguments (the remote's branch tips unchanged — the
fetch itself only updates local remote-tracking state) returns the
identical commit identifier string, the world reaching a fixed point. -/
theorem fetch_deterministic_repeated_call (w : World) (lp key : FsPath)
    (r b : String) (sha : Sha) (w1 : World) (evs : List Event)
    (hc : fetch_latest_commit_sha w lp key r b = (.ok sha, w1, evs)) :
    fetch_latest_commit_sha w1 lp key r b = (.ok sha, w1, evs) :=
  fetch_ok_refetch w lp key r b sha w1 evs hc

/-- A remote serving branch "main" at tip "bbb". -/
def c10remote : RemoteData :=
  { url := "ssh://git@example/x", username_from_url := some "git",
    requests_credentials := false, allowed_types := [CredType.sshKeyType],
    branches := [("main", "bbb")] }

/-- A repository with `c10remote` configured as "origin". -/
def c10repo : RepoState :=
  { head := some "aaa", remotes := [("origin", c10remote)],
    remote_tracking := [], fetch_head := none, workdir_merged_with := none }

/-- A world holding `c10repo` at path "repo10". -/
def c10world : World := ⟨[("repo10", c10repo)]⟩

/-- Witness for the C10 theorem: a second concrete fetch returns the
same commit id "bbb" and the same world. -/
theorem fetch_deterministic_repeated_call_witness :
    fetch_latest_commit_sha
        (setRepo c10world "repo10" (fetchUpdate c10repo "origin" "main" "bbb"))
        "repo10" "key" "origin" "main" =
      (.ok "bbb",
        setRepo c10world "repo10" (fetchUpdate c10repo "origin" "main" "bbb"),
        [Event.networkFetch "origin" "main" true]) :=
  fetch_deterministic_repeated_call c10world "repo10" "key" "origin" "main"
    "bbb" (setRepo c10world "repo10" (fetchUpdate c10repo "origin" "main" "bbb"))
    [Event.networkFetch "origin" "main" true] rfl

/-! ## Claim C2 -/

/-- Claim C2: when the local tip equals the remote tip after the fetch
stage, the comparator returns false, `run` succeeds without ever
invoking the merge stage (no merge event in the trace), the invocation
mutates the repository only in its remote-tracking state (HEAD, remotes
and merged-index marker are untouched), and a repeated invocation with
no remote change reproduces the same world and trace (idempotence). -/
theorem no_merge_when_tips_equal (oracle : MergeOracle) (w : World)
    (args : Cli) (env : List (String × String)) (cfg : ResolvedConfig)
    (sha : Sha) (w1 : World) (evs : List Event) (repo1 : RepoState)
    (hcfg : resolveConfig args env = some cfg)
    (hfetch : fetch_latest_commit_sha w cfg.local_path cfg.ssh_key_path
      cfg.remote cfg.branch = (.ok sha, w1, evs))
    (hop1 : openRepo w1 cfg.local_path = some repo1)
    (hhead : repo1.head = some sha) :
    check_for_new_commits w1 cfg.local_path sha = .ok false ∧
      run oracle w args env = (.ok (), w1, evs) ∧
      (∀ s, Event.mergeInvoked s ∉ evs) ∧
      run oracle w1 args env = (.ok (), w1, evs) ∧
      ∀ repo, openRepo w cfg.local_path = some repo →
        repo1.head = repo.head ∧ repo1.remotes = repo.remotes ∧
          repo1.workdir_merged_with = repo.workdir_merged_with := by
  obtain ⟨repo0, rd, hop0, hrd, htip, hcred, hw1, hevs⟩ :=
    fetch_ok_inv w cfg.local_path cfg.ssh_key_path cfg.remote cfg.branch
      sha w1 evs hfetch
  have hchk : check_for_new_commits w1 cfg.local_path sha = .ok false := by
    simp [check_for_new_commits, hop1, hhead]
  have hrun : run oracle w args env = (.ok (), w1, evs) := by
    simp [run, hcfg, hfetch, hchk]
  have hfetch2 := fetch_ok_refetch w cfg.local_path cfg.ssh_key_path
    cfg.remote cfg.branch sha w1 evs hfetch
  have hrun2 : run oracle w1 args env = (.ok (), w1, evs) := by
    simp [run, hcfg, hfetch2, hchk]
  refine ⟨hchk, hrun, ?_, hrun2, ?_⟩
  · intro s
    rw [hevs]
    simp
  · intro repo hop
    rw [hop0] at hop
    have h1 : repo0 = repo := Option.some.inj hop
    subst h1
    have h2 : fetchUpdate repo0 cfg.remote cfg.branch sha = repo1 := by
      rw [hw1, openRepo_setRepo_self] at hop1
      exact Option.some.inj hop1
    subst h2
    exact ⟨rfl, rfl, rfl⟩

/-- A remote serving branch "main" at tip "aaa" (equal to the local
HEAD). -/
def c2remote : RemoteData :=
  { url := "ssh://git@example/x", username_from_url := some "git",
    requests_credentials := false, allowed_types := [CredType.sshKeyType],
    branches := [("main", "aaa")] }

/-- A repository already at the remote tip "aaa". -/
def c2repo : RepoState :=
  { head := some "aaa", remotes := [("origin", c2remote)],
    remote_tracking := [], fetch_head := none, workdir_merged_with := none }

/-- A world holding `c2repo` at path "repo2". -/
def c2world : World := ⟨[("repo2", c2repo)]⟩

/-- The world after the fetch stage of one invocation on `c2world`. -/
def c2world1 : World :=
  setRepo c2world "repo2" (fetchUpdate c2repo "origin" "main" "aaa")

/-- CLI arguments selecting `c2world`'s repository. -/
def c2args : Cli := ⟨some "repo2", some "origin", some "main", some "key", none⟩

/-- An oracle that would conflict on everything — irrelevant, since the
merge stage is never reached. -/
def c2oracle : MergeOracle := ⟨fun _ _ => true⟩

/-- Witness for the C2 theorem on a concrete up-to-date repository. -/
theorem no_merge_when_tips_equal_witness :
    check_for_new_commits c2world1 "repo2" "aaa" = .ok false ∧
      run c2oracle c2world c2args [] =
        (.ok (), c2world1, [Event.networkFetch "origin" "main" true]) ∧
      (∀ s, Event.mergeInvoked s ∉ [Event.networkFetch "origin" "main" true]) ∧
      run c2oracle c2world1 c2args [] =
        (.ok (), c2world1, [Event.networkFetch "origin" "main" true]) ∧
      ∀ repo, openRepo c2world "repo2" = some repo →
        (fetchUpdate c2repo "origin" "main" "aaa").head = repo.head ∧
          (fetchUpdate c2repo "origin" "main" "aaa").remotes = repo.remotes ∧
          (fetchUpdate c2repo "origin" "main" "aaa").workdir_merged_with =
            repo.workdir_merged_with :=
  no_merge_when_tips_equal c2oracle c2world c2args []
    ⟨"repo2", "origin", "main", "key"⟩ "aaa" c2world1
    [Event.networkFetch "origin" "main" true]
    (fetchUpdate c2repo "origin" "main" "aaa") rfl rfl
    (openRepo_setRepo_self c2world "repo2" _) rfl

/-! ## Claim C3 -/

/-- An oracle under which every merge conflicts: the local change
conflicts with the remote change. -/
def c3oracle : MergeOracle := ⟨fun _ _ => true⟩

/-- A remote serving branch "main" at tip "bbb". -/
def c3remote : RemoteData :=
  { url := "ssh://git@example/x", username_from_url := some "git",
    requests_credentials := false, allowed_types := [CredType.sshKeyType],
    branches := [("main", "bbb")] }

/-- A repository at local HEAD "aaa", about to conflict with "bbb". -/
def c3repo : RepoState :=
  { head := some "aaa", remotes := [("origin", c3remote)],
    remote_tracking := [], fetch_head := none, workdir_merged_with := none }

/-- A world holding `c3repo` at path "repo3". -/
def c3world : World := ⟨[("repo3", c3repo)]⟩

/-- Counterexample to claim C3 as stated: on a repository whose local
change conflicts with the remote change, `pull_repo` does NOT return the
`MergeConflict` failure of the Merger contract — the merge error is
`.unwrap()`ped at src/main.rs line 112, so the invocation panics. -/
theorem pull_repo_conflict_counterexample :
    (pull_repo c3oracle c3world "repo3" "origin" "main").1 = .panicked ∧
      (pull_repo c3oracle c3world "repo3" "origin" "main").1 ≠
        .err .mergeConflict := by
  constructor
  · rfl
  · intro hc
    rw [show (pull_repo c3oracle c3world "repo3" "origin" "main").1 =
      Outcome.panicked from rfl] at hc
    exact Outcome.noConfusion hc

/-- Claim C3 amended: on a repository with a local change conflicting
with a remote change, the merge stage still fails loudly and leaves the
local branch tip unchanged with no conflicted state committed — but it
fails by PANICKING on the unwrapped merge error (src/main.rs line 112),
not by returning the `MergeConflict` failure of its contract; the only
surviving mutation is the re-fetch's remote-tracking update. -/
theorem pull_repo_conflict_panics_tip_unchanged (oracle : MergeOracle)
    (w : World) (lp : FsPath) (r b : String) (repo : RepoState)
    (rd : RemoteData) (tip localSha : Sha)
    (hop : openRepo w lp = some repo)
    (hrd : repo.remotes.lookup r = some rd)
    (hreq : rd.requests_credentials = false)
    (htip : rd.branches.lookup b = some tip)
    (hh : repo.head = some localSha)
    (hconf : oracle.conflicts localSha tip = true) :
    pull_repo oracle w lp r b = (.panicked,
        setRepo w lp (fetchUpdate repo r b tip),
        [Event.networkFetch r b false, Event.mergeInvoked tip]) ∧
      openRepo (setRepo w lp (fetchUpdate repo r b tip)) lp =
        some (fetchUpdate repo r b tip) ∧
      (fetchUpdate repo r b tip).head = repo.head ∧
      (fetchUpdate repo r b tip).workdir_merged_with =
        repo.workdir_merged_with := by
  refine ⟨?_, openRepo_setRepo_self w lp _, rfl, rfl⟩
  simp [pull_repo, hop, hrd, remoteFetch, hreq, htip, fetchUpdate, repoMerge,
    hh, hconf]

/-- Witness for the amended C3 theorem on the concrete conflicting
repository. -/
theorem pull_repo_conflict_panics_tip_unchanged_witness :
    pull_repo c3oracle c3world "repo3" "origin" "main" = (.panicked,
        setRepo c3world "repo3" (fetchUpdate c3repo "origin" "main" "bbb"),
        [Event.networkFetch "origin" "main" false, Event.mergeInvoked "bbb"]) ∧
      openRepo (setRepo c3world "repo3" (fetchUpdate c3repo "origin" "main" "bbb"))
          "repo3" = some (fetchUpdate c3repo "origin" "main" "bbb") ∧
      (fetchUpdate c3repo "origin" "main" "bbb").head = c3repo.head ∧
      (fetchUpdate c3repo "origin" "main" "bbb").workdir_merged_with =
        c3repo.workdir_merged_with :=
  pull_repo_conflict_panics_tip_unchanged c3oracle c3world "repo3" "origin"
    "main" c3repo c3remote "bbb" "aaa" rfl rfl rfl rfl rfl rfl

/-! ## Claim C5 -/

/-- CLI arguments supplying local path, remote and branch but no SSH key
path. -/
def c5args : Cli := ⟨some "repo5", some "origin", some "main", none, none⟩

/-- An oracle for the C5 scenario (never consulted). -/
def c5oracle : MergeOracle := ⟨fun _ _ => false⟩

/-- An empty world for the C5 scenario (never opened). -/
def c5world : World := ⟨[]⟩

/-- Counterexample to claim C5 as stated: an invocation supplying the
local path, remote name and branch name but no SSH key path — neither as
a flag nor in the environment/configuration source — does NOT resolve
its configuration and proceed to the fetch stage: resolution hits
`env::var("SSH_KEY_PATH").expect("SSH key path not set")`
(src/main.rs line 135) and panics, and `run` performs no fetch at all. -/
theorem missing_ssh_key_counterexample :
    resolveConfig c5args [] = none ∧
      run c5oracle c5world c5args [] = (.panicked, c5world, []) :=
  ⟨rfl, rfl⟩

/-- Claim C5 amended: the SSH key path is required, not optional: when
the local path, remote and branch all resolve but the SSH key path is
given neither as a flag nor in the environment, configuration resolution
panics (`expect("SSH key path not set")`), so the invocation never
reaches the fetch stage and its event trace is empty. -/
theorem missing_ssh_key_panics_before_fetch (oracle : MergeOracle)
    (w : World) (args : Cli) (env : List (String × String))
    (lp r b : String)
    (hlp : orEnv args.local_path env "LOCAL_PATH" = some lp)
    (hr : orEnv args.remote env "REMOTE" = some r)
    (hb : orEnv args.branch env "BRANCH" = some b)
    (hk : args.ssh_key_path = none)
    (henv : env.lookup "SSH_KEY_PATH" = none) :
    resolveConfig args env = none ∧
      run oracle w args env = (.panicked, w, []) := by
  have hke : orEnv args.ssh_key_path env "SSH_KEY_PATH" = none := by
    simp [orEnv, hk, henv]
  have h : resolveConfig args env = none := by
    simp [resolveConfig, hlp, hr, hb, hke]
  exact ⟨h, by simp [run, h]⟩

/-- CLI arguments for the amended-C5 witness: a different repository
path, again with no SSH key path anywhere. -/
def c5wargs : Cli := ⟨some "wrepo5", some "github", some "master", none, none⟩

/-- Witness for the amended C5 theorem at concrete arguments. -/
theorem missing_ssh_key_panics_before_fetch_witness :
    resolveConfig c5wargs [("LOCAL_PATH", "x")] = none ∧
      run c5oracle c5world c5wargs [("LOCAL_PATH", "x")] =
        (.panicked, c5world, []) :=
  missing_ssh_key_panics_before_fetch c5oracle c5world c5wargs
    [("LOCAL_PATH", "x")] "wrepo5" "github" "master" rfl rfl rfl rfl rfl

/-- A remote for the C4 witness, serving branch "main" at tip "bbb". -/
def c4remote : RemoteData :=
  { url := "ssh://git@example/x", username_from_url := some "git",
    requests_credentials := false, allowed_types := [CredType.sshKeyType],
    branches := [("main", "bbb")] }

/-- A repository with `c4remote` configured as "origin". -/
def c4repo : RepoState :=
  { head := some "aaa", remotes := [("origin", c4remote)],
    remote_tracking := [], fetch_head := none, workdir_merged_with := none }

/-- A world holding `c4repo` at path "repo4". -/
def c4world : World := ⟨[("repo4", c4repo)]⟩

/-- A conflict-free oracle for the C4 witness. -/
def c4oracle : MergeOracle := ⟨fun _ _ => false⟩

/-- Witness for the C4 theorem: on a concrete pull, the network-fetch
event carries no credential callback. -/
theorem pull_repo_fetch_without_credentials_witness :
    (∃ rest, (pull_repo c4oracle c4world "repo4" "origin" "main").2.2 =
        Event.networkFetch "origin" "main" false :: rest) ∧
      ∀ rn bn c, Event.networkFetch rn bn c ∈
          (pull_repo c4oracle c4world "repo4" "origin" "main").2.2 →
        c = false :=
  pull_repo_fetch_without_credentials c4oracle c4world "repo4" "origin" "main"
    c4repo c4remote rfl rfl
